import Mathlib

/-!
Verification of the Audit Aggregation & Compliance Classification Engine of
the ios-simulator-mcp-server repository, as a shallow embedding in Lean 4.

The embedding follows the TypeScript source:
* the data model mirrors src/types.ts;
* the two audit tool handlers mirror registerAuditTools in
  src/tools/simulator.ts (ios_audit_accessibility and ios_audit_all),
  including the JavaScript truthiness and operator-precedence semantics of
  the totalIssues expression;
* the markdown renderers mirror formatTouchTargetAuditMarkdown and
  formatContrastAuditMarkdown in src/services/formatters.ts;
* the in-app classifiers (ClaudeDebugKit) are not part of the repository
  sources; where a claim depends on them they are modelled from the spec
  and marked as such in their doc comments.

JavaScript numbers are modelled as rationals; list lengths as naturals.
-/

/-- A view frame in device points, mirroring the frame records of
src/types.ts. Width and height are untrusted and may be zero or negative. -/
structure Frame where
  x : Rat
  y : Rat
  width : Rat
  height : Rat
deriving DecidableEq

/-- Mirrors the element records returned by
DebugServerClient.getInteractiveElements in src/services/debugServer.ts:
viewId, type, optional label, frame. -/
structure InteractiveElement where
  viewId : String
  type : String
  label : Option String
  frame : Frame
deriving DecidableEq

/-- Mirrors interface TouchTargetAudit of src/types.ts. -/
structure TouchTargetAudit where
  viewId : String
  accessibilityLabel : Option String
  frame : Frame
  touchableArea : Rat
  meetsMinimum : Bool
  recommendation : Option String
deriving DecidableEq

/-- Mirrors interface ColorInfo of src/types.ts. -/
structure ColorInfo where
  hex : String
  r : Rat
  g : Rat
  b : Rat
  alpha : Rat
deriving DecidableEq

/-- Mirrors interface ContrastCheckResult of src/types.ts. -/
structure ContrastCheckResult where
  viewId : String
  foregroundColor : ColorInfo
  backgroundColor : ColorInfo
  contrastRatio : Rat
  meetsWCAG_AA : Bool
  meetsWCAG_AAA : Bool
  text : Option String
  fontSize : Option Rat
deriving DecidableEq

/-- Mirrors the layout-issue records returned by
DebugServerClient.getLayoutIssues in src/services/debugServer.ts. -/
structure LayoutIssue where
  viewId : String
  issue : String
  hasAmbiguousLayout : Bool
  translatesAutoresizingMaskIntoConstraints : Bool
deriving DecidableEq

/-- Mirrors interface DebugServerResponse of src/types.ts:
success flag, optional data, optional error message. -/
structure DebugServerResponse (T : Type) where
  success : Bool
  data : Option T
  error : Option String
deriving DecidableEq

/-- A successful response carrying data, as produced by
DebugServerClient.request on an ok HTTP response. -/
def okResp {T : Type} (d : T) : DebugServerResponse T :=
  { success := true, data := some d, error := none }

/-- A failed response, as produced by DebugServerClient.request on a
non-ok HTTP response or a connection error. -/
def failResp {T : Type} (e : String) : DebugServerResponse T :=
  { success := false, data := none, error := some e }

/-- JavaScript truthiness of an optional string, as used by the source in
conditions such as !el.label and item.text ? ... : ... ; undefined and the
empty string are falsy, every other string is truthy. -/
def jsFalsyStr : Option String → Bool
  | none => true
  | some s => s.isEmpty

/-- JavaScript a || b for a an optional string and b a string, as in
item.accessibilityLabel || item.viewId in src/services/formatters.ts. -/
def jsOrStr (a : Option String) (b : String) : String :=
  match a with
  | none => b
  | some s => if s.isEmpty then b else s

/-- The subset of JavaScript number-or-undefined values flowing through the
totalIssues expression of ios_audit_all: undefined, NaN, or a natural
number (every operand there is a list length). -/
inductive JSNum where
  | undef
  | nan
  | num (n : Nat)
deriving DecidableEq

/-- JavaScript + on JSNum: adding undefined or NaN yields NaN. -/
def jsAdd : JSNum → JSNum → JSNum
  | JSNum.num a, JSNum.num b => JSNum.num (a + b)
  | _, _ => JSNum.nan

/-- JavaScript truthiness on JSNum: undefined, NaN and 0 are falsy. -/
def jsTruthy : JSNum → Bool
  | JSNum.num n => decide (n ≠ 0)
  | _ => false

/-- JavaScript a || b on JSNum (short-circuiting disjunction on values). -/
def jsOr (a b : JSNum) : JSNum :=
  if jsTruthy a then a else b

/-- Lifts an optional count to a JSNum, mirroring the optional-chaining
access results.category?.field (undefined when the category is absent). -/
def optNum : Option Nat → JSNum
  | none => JSNum.undef
  | some n => JSNum.num n

/-- An accessibility issue as pushed by the ios_audit_accessibility handler
in src/tools/simulator.ts. -/
structure AccessibilityIssue where
  viewId : String
  type : String
  issue : String
  severity : String
deriving DecidableEq

/-- Renders a rational the way JavaScript template interpolation renders the
integral numbers appearing in the audited scenarios. -/
def jsNumStr (q : Rat) : String := toString q

/-- The ios_audit_accessibility handler of src/tools/simulator.ts, from the
two telemetry responses to either a fatal error (interactive-elements
failure) or the derived issue list. A failed touch-target response is
replaced by the empty list, exactly as line 546 of the source does. -/
def iosAuditAccessibility
    (interR : DebugServerResponse (List InteractiveElement))
    (touchR : DebugServerResponse (List TouchTargetAudit)) :
    Except String (List AccessibilityIssue) :=
  if interR.success then
    let touchTargets := if touchR.success then touchR.data.getD [] else []
    let elements := interR.data.getD []
    let labelIssues := elements.filterMap (fun el =>
      if jsFalsyStr el.label && !(el.type == "UIView") then
        some { viewId := el.viewId, type := el.type,
               issue := "Missing accessibility label", severity := "high" }
      else none)
    let touchIssues := touchTargets.filterMap (fun tt =>
      if !tt.meetsMinimum then
        some { viewId := tt.viewId, type := "touch_target",
               issue := "Touch target too small: " ++ jsNumStr tt.frame.width
                 ++ "×" ++ jsNumStr tt.frame.height
                 ++ "pt (minimum 44×44pt)",
               severity := "medium" }
      else none)
    Except.ok (labelIssues ++ touchIssues)
  else
    Except.error (interR.error.getD "")

/-- The touchTargets entry of the results record built by ios_audit_all. -/
structure TouchSummary where
  total : Nat
  failing : Nat
deriving DecidableEq

/-- The contrast entry of the results record built by ios_audit_all. -/
structure ContrastSummary where
  total : Nat
  failing : Nat
deriving DecidableEq

/-- The layout entry of the results record built by ios_audit_all. -/
structure LayoutSummary where
  issues : Nat
deriving DecidableEq

/-- The accessibility entry of the results record built by ios_audit_all. -/
structure AccessibilitySummary where
  total : Nat
  missingLabels : Nat
deriving DecidableEq

/-- The results record of the ios_audit_all handler: one optional entry per
category, absent exactly when that category response was unsuccessful. -/
structure AuditAllResults where
  touchTargets : Option TouchSummary
  contrast : Option ContrastSummary
  layout : Option LayoutSummary
  accessibility : Option AccessibilitySummary
deriving DecidableEq

/-- Builds the results record of ios_audit_all from the four telemetry
responses, mirroring the four if-success blocks of the handler. -/
def iosAuditAllResults
    (touchR : DebugServerResponse (List TouchTargetAudit))
    (contrastR : DebugServerResponse (List ContrastCheckResult))
    (layoutR : DebugServerResponse (List LayoutIssue))
    (interR : DebugServerResponse (List InteractiveElement)) :
    AuditAllResults :=
  { touchTargets :=
      if touchR.success then
        some { total := (touchR.data.getD []).length,
               failing :=
                 ((touchR.data.getD []).filter (fun t => !t.meetsMinimum)).length }
      else none,
    contrast :=
      if contrastR.success then
        some { total := (contrastR.data.getD []).length,
               failing :=
                 ((contrastR.data.getD []).filter (fun c => !c.meetsWCAG_AA)).length }
      else none,
    layout :=
      if layoutR.success then
        some { issues := (layoutR.data.getD []).length }
      else none,
    accessibility :=
      if interR.success then
        some { total := (interR.data.getD []).length,
               missingLabels :=
                 ((interR.data.getD []).filter (fun e => jsFalsyStr e.label)).length }
      else none }

/-- The totalIssues expression of ios_audit_all with JavaScript operator
precedence: plus binds tighter than the logical or, so the expression
parses as a chain of or-operands, the first of which is the bare
touchTargets count and the remaining ones are 0 + count. -/
def iosAuditAllTotalIssues (results : AuditAllResults) : JSNum :=
  jsOr
    (jsOr
      (jsOr
        (jsOr (optNum (results.touchTargets.map (fun r => r.failing)))
          (jsAdd (JSNum.num 0)
            (optNum (results.contrast.map (fun r => r.failing)))))
        (jsAdd (JSNum.num 0)
          (optNum (results.layout.map (fun r => r.issues)))))
      (jsAdd (JSNum.num 0)
        (optNum (results.accessibility.map (fun r => r.missingLabels)))))
    (JSNum.num 0)

/-- Renders a JSNum the way JavaScript template interpolation would. -/
def jsNumRender : JSNum → String
  | JSNum.undef => "undefined"
  | JSNum.nan => "NaN"
  | JSNum.num n => toString n

/-- The markdown lines built by the ios_audit_all handler: header, one
section per successful category, separator, total line, closing note. -/
def iosAuditAllLines
    (touchR : DebugServerResponse (List TouchTargetAudit))
    (contrastR : DebugServerResponse (List ContrastCheckResult))
    (layoutR : DebugServerResponse (List LayoutIssue))
    (interR : DebugServerResponse (List InteractiveElement)) :
    List String :=
  let results := iosAuditAllResults touchR contrastR layoutR interR
  ["# Full UI/UX Audit Report\n"]
  ++ (if touchR.success then
        let failing := ((touchR.data.getD []).filter (fun t => !t.meetsMinimum)).length
        ["## Touch Targets",
         if failing == 0 then "✅ All touch targets meet minimum size"
         else "⚠️ " ++ toString failing ++ " elements below 44×44pt",
         ""]
      else [])
  ++ (if contrastR.success then
        let failing := ((contrastR.data.getD []).filter (fun c => !c.meetsWCAG_AA)).length
        ["## Color Contrast",
         if failing == 0 then "✅ All text meets WCAG AA contrast"
         else "⚠️ " ++ toString failing ++ " elements fail WCAG AA",
         ""]
      else [])
  ++ (if layoutR.success then
        let issues := (layoutR.data.getD []).length
        ["## Auto Layout",
         if issues == 0 then "✅ No layout issues"
         else "⚠️ " ++ toString issues ++ " layout issues detected",
         ""]
      else [])
  ++ (if interR.success then
        let noLabel := ((interR.data.getD []).filter (fun e => jsFalsyStr e.label)).length
        ["## Accessibility",
         if noLabel == 0 then "✅ All interactive elements have labels"
         else "⚠️ " ++ toString noLabel ++ " elements missing accessibility labels",
         ""]
      else [])
  ++ ["---",
      "**Total Issues Found:** " ++ jsNumRender (iosAuditAllTotalIssues results),
      "\n*Run individual audits for detailed information.*"]

/-- The full report of the ios_audit_all handler: the structured results
record, the totalIssues value, and the markdown lines. The handler is a
total function of the four responses: no response combination throws. -/
structure AuditAllReport where
  results : AuditAllResults
  totalIssues : JSNum
  lines : List String
deriving DecidableEq

/-- The ios_audit_all handler of src/tools/simulator.ts as a total function
of the four telemetry responses. -/
def iosAuditAll
    (touchR : DebugServerResponse (List TouchTargetAudit))
    (contrastR : DebugServerResponse (List ContrastCheckResult))
    (layoutR : DebugServerResponse (List LayoutIssue))
    (interR : DebugServerResponse (List InteractiveElement)) :
    AuditAllReport :=
  let results := iosAuditAllResults touchR contrastR layoutR interR
  { results := results,
    totalIssues := iosAuditAllTotalIssues results,
    lines := iosAuditAllLines touchR contrastR layoutR interR }

/-- Mirrors MIN_TOUCH_TARGET_SIZE in src/constants.ts (Apple HIG minimum). -/
def MIN_TOUCH_TARGET_SIZE : Rat := 44

/-- Mirrors WCAG_AA_CONTRAST_NORMAL in src/constants.ts (value 4.5). -/
def WCAG_AA_CONTRAST_NORMAL : Rat := mkRat 9 2

/-- Mirrors WCAG_AA_CONTRAST_LARGE in src/constants.ts (value 3.0). -/
def WCAG_AA_CONTRAST_LARGE : Rat := 3

/-- Mirrors WCAG_AAA_CONTRAST_NORMAL in src/constants.ts (value 7.0). -/
def WCAG_AAA_CONTRAST_NORMAL : Rat := 7

/-- Mirrors WCAG_AAA_CONTRAST_LARGE in src/constants.ts (value 4.5). -/
def WCAG_AAA_CONTRAST_LARGE : Rat := mkRat 9 2

/-- Modelled from the spec: the touch-target classifier runs inside the
in-app ClaudeDebugKit service, whose implementation is not among the
repository sources (the repository only declares its output shape in
src/types.ts and calls it through DebugServerClient.auditTouchTargets).
Per spec sections 3 and 4.1: touchableArea is frame.width * frame.height
and meetsMinimum is true iff both width and height are at least the 44pt
HIG minimum; zero- or negative-dimension frames classify as failing. -/
def classifyTouchTarget (viewId : String) (label : Option String)
    (frame : Frame) : TouchTargetAudit :=
  let meets := decide (MIN_TOUCH_TARGET_SIZE ≤ frame.width)
    && decide (MIN_TOUCH_TARGET_SIZE ≤ frame.height)
  { viewId := viewId,
    accessibilityLabel := label,
    frame := frame,
    touchableArea := frame.width * frame.height,
    meetsMinimum := meets,
    recommendation :=
      if meets then none
      else some "Increase touch target to at least 44×44pt" }

/-- Modelled from the spec: the contrast classifier runs inside the in-app
ClaudeDebugKit service, whose implementation is not among the repository
sources (the repository only declares its output shape in src/types.ts,
defines the threshold constants in src/constants.ts, and calls it through
DebugServerClient.auditContrast). Per spec section 4.2: large-text
thresholds are selected when fontSize indicates large text (at least 18pt;
a missing fontSize takes the conservative normal-text default), and
meetsAA and meetsAAA are evaluated independently against the same ratio.
Returns the pair (meetsAA, meetsAAA). -/
def classifyContrast (ratio : Rat) (fontSize : Option Rat) : Bool × Bool :=
  let large := match fontSize with
    | some fs => decide ((18 : Rat) ≤ fs)
    | none => false
  let aaThreshold := if large then WCAG_AA_CONTRAST_LARGE
    else WCAG_AA_CONTRAST_NORMAL
  let aaaThreshold := if large then WCAG_AAA_CONTRAST_LARGE
    else WCAG_AAA_CONTRAST_NORMAL
  (decide (aaThreshold ≤ ratio), decide (aaaThreshold ≤ ratio))

/-- The issue block rendered for one failing item by
formatTouchTargetAuditMarkdown in src/services/formatters.ts: a heading
carrying the accessibility label (or the viewId when the label is falsy),
a size line with the area, a position line, an optional recommendation
line, and a blank line. -/
def touchIssueBlock (item : TouchTargetAudit) : List String :=
  ["### " ++ jsOrStr item.accessibilityLabel item.viewId,
   "- **Size:** " ++ jsNumStr item.frame.width ++ "×"
     ++ jsNumStr item.frame.height ++ "pt (area: "
     ++ jsNumStr item.touchableArea ++ "pt²)",
   "- **Position:** (" ++ jsNumStr item.frame.x ++ ", "
     ++ jsNumStr item.frame.y ++ ")"]
  ++ (match item.recommendation with
      | some r => ["- **Recommendation:** " ++ r]
      | none => [])
  ++ [""]

/-- The line list built by formatTouchTargetAuditMarkdown in
src/services/formatters.ts before joining with newlines. -/
def formatTouchTargetAuditLines (audit : List TouchTargetAudit) :
    List String :=
  let failing := audit.filter (fun a => !a.meetsMinimum)
  let passing := audit.filter (fun a => a.meetsMinimum)
  ["# Touch Target Audit\n"]
  ++ (if failing.length == 0 then
        ["✅ **All touch targets meet minimum size requirements (44×44pt)**\n"]
      else
        ["⚠️ **" ++ toString failing.length
           ++ " touch targets are below minimum size**\n",
         "## Issues\n"]
        ++ failing.flatMap touchIssueBlock)
  ++ ["\n**Summary:** " ++ toString passing.length ++ " passing, "
       ++ toString failing.length ++ " failing"]

/-- formatTouchTargetAuditMarkdown of src/services/formatters.ts: the
joined rendering of the line list. -/
def formatTouchTargetAuditMarkdown (audit : List TouchTargetAudit) :
    String :=
  String.intercalate "\n" (formatTouchTargetAuditLines audit)

/-- Renders a rational with two decimal places, standing for the JavaScript
number method toFixed applied with argument 2 to the contrast ratio. -/
def fixed2 (q : Rat) : String :=
  let n : Int := round (q * 100)
  let sign := if n < 0 then "-" else ""
  let m := n.natAbs
  let frac := m % 100
  sign ++ toString (m / 100) ++ "."
    ++ (if frac < 10 then "0" else "") ++ toString frac

/-- The failing items of a contrast result list, as filtered by
formatContrastAuditMarkdown in src/services/formatters.ts. -/
def contrastFailing (results : List ContrastCheckResult) :
    List ContrastCheckResult :=
  results.filter (fun r => !r.meetsWCAG_AA)

/-- The AA-only items of a contrast result list, as filtered by
formatContrastAuditMarkdown in src/services/formatters.ts. -/
def contrastAAOnly (results : List ContrastCheckResult) :
    List ContrastCheckResult :=
  results.filter (fun r => r.meetsWCAG_AA && !r.meetsWCAG_AAA)

/-- The AAA items of a contrast result list, as filtered by
formatContrastAuditMarkdown in src/services/formatters.ts. -/
def contrastAAA (results : List ContrastCheckResult) :
    List ContrastCheckResult :=
  results.filter (fun r => r.meetsWCAG_AAA)

/-- The block rendered for one item failing WCAG AA by
formatContrastAuditMarkdown in src/services/formatters.ts. -/
def contrastFailBlock (item : ContrastCheckResult) : List String :=
  let textPreview :=
    match item.text with
    | some t =>
        if t.isEmpty then item.viewId
        else "\"" ++ (t.take 30)
          ++ (if 30 < t.length then "..." else "") ++ "\""
    | none => item.viewId
  ["### " ++ textPreview,
   "- **Contrast Ratio:** " ++ fixed2 (ContrastCheckResult.contrastRatio item) ++ ":1",
   "- **Colors:** " ++ item.foregroundColor.hex ++ " on "
     ++ item.backgroundColor.hex]
  ++ (match item.fontSize with
      | some fs =>
          if fs == 0 then []
          else ["- **Font Size:** " ++ jsNumStr fs ++ "pt"]
      | none => [])
  ++ ["- **Required:** 4.5:1 (AA) / 7:1 (AAA)", ""]

/-- The line rendered for one AA-only item by formatContrastAuditMarkdown
in src/services/formatters.ts (note: this branch always appends the
ellipsis to a present text). -/
def contrastAAOnlyLine (item : ContrastCheckResult) : String :=
  let textPreview :=
    match item.text with
    | some t => if t.isEmpty then item.viewId else "\"" ++ t.take 30 ++ "...\""
    | none => item.viewId
  "- " ++ textPreview ++ ": " ++ fixed2 (ContrastCheckResult.contrastRatio item) ++ ":1 ("
    ++ item.foregroundColor.hex ++ "/" ++ item.backgroundColor.hex ++ ")"

/-- The summary line of formatContrastAuditMarkdown. -/
def contrastSummaryLine (results : List ContrastCheckResult) : String :=
  "\n**Summary:** " ++ toString (contrastAAA results).length ++ " AAA, "
    ++ toString (contrastAAOnly results).length ++ " AA only, "
    ++ toString (contrastFailing results).length ++ " failing"

/-- The line list built by formatContrastAuditMarkdown in
src/services/formatters.ts before joining with newlines. -/
def formatContrastAuditLines (results : List ContrastCheckResult) :
    List String :=
  ["# Color Contrast Audit\n"]
  ++ (if 0 < (contrastFailing results).length then
        ["## ❌ Failing WCAG AA\n"]
        ++ (contrastFailing results).flatMap contrastFailBlock
      else [])
  ++ (if 0 < (contrastAAOnly results).length then
        ["## ✅ Passing AA (not AAA)\n"]
        ++ (contrastAAOnly results).map contrastAAOnlyLine
        ++ [""]
      else [])
  ++ [contrastSummaryLine results]

/-- formatContrastAuditMarkdown of src/services/formatters.ts: the joined
rendering of the line list. -/
def formatContrastAuditMarkdown (results : List ContrastCheckResult) :
    String :=
  String.intercalate "\n" (formatContrastAuditLines results)

/-- Extracts, from a rendered line list, the labels of issue-heading lines
(the lines beginning with the level-three heading marker). -/
def issueHeadings (lines : List String) : List String :=
  lines.filterMap (fun l =>
    if l.data.take 4 == "### ".data then some (String.mk (l.data.drop 4))
    else none)

/-- A sample undersized (30×30) touch target failing the minimum. -/
def ttFail30 (vid : String) : TouchTargetAudit :=
  { viewId := vid, accessibilityLabel := none, frame := ⟨0, 0, 30, 30⟩,
    touchableArea := 900, meetsMinimum := false, recommendation := none }

/-- A sample compliant (48×48) touch target. -/
def ttPass48 (vid : String) : TouchTargetAudit :=
  { viewId := vid, accessibilityLabel := none, frame := ⟨0, 0, 48, 48⟩,
    touchableArea := 2304, meetsMinimum := true, recommendation := none }

/-- A sample interactive button element with no accessibility label. -/
def elemNoLabel (vid : String) : InteractiveElement :=
  { viewId := vid, type := "Button", label := none,
    frame := ⟨0, 0, 100, 40⟩ }

/-- The btn1 element of the spec scenario: a Button with an empty label. -/
def btn1Element : InteractiveElement :=
  { viewId := "btn1", type := "Button", label := some "",
    frame := ⟨0, 0, 30, 30⟩ }

/-- A sample contrast result passing both AA and AAA. -/
def crPassAAA (vid : String) : ContrastCheckResult :=
  { viewId := vid,
    foregroundColor := { hex := "#000000", r := 0, g := 0, b := 0, alpha := 1 },
    backgroundColor := { hex := "#FFFFFF", r := 255, g := 255, b := 255, alpha := 1 },
    contrastRatio := 21, meetsWCAG_AA := true, meetsWCAG_AAA := true,
    text := some "ok", fontSize := some 16 }

/-- A sample contrast result failing both AA and AAA. -/
def crFail (vid : String) : ContrastCheckResult :=
  { viewId := vid,
    foregroundColor := { hex := "#777777", r := 119, g := 119, b := 119, alpha := 1 },
    backgroundColor := { hex := "#888888", r := 136, g := 136, b := 136, alpha := 1 },
    contrastRatio := 2, meetsWCAG_AA := false, meetsWCAG_AAA := false,
    text := some "bad", fontSize := some 16 }

/-- A sample contrast result passing AA only. -/
def crAAOnly (vid : String) : ContrastCheckResult :=
  { viewId := vid,
    foregroundColor := { hex := "#666666", r := 102, g := 102, b := 102, alpha := 1 },
    backgroundColor := { hex := "#FFFFFF", r := 255, g := 255, b := 255, alpha := 1 },
    contrastRatio := 5, meetsWCAG_AA := true, meetsWCAG_AAA := false,
    text := some "mid", fontSize := some 16 }

/-- Splitting a filter by a second predicate: the items satisfying p are
exactly the items satisfying p but not q plus the items satisfying both. -/
theorem length_filter_split {α : Type _} (p q : α → Bool) (l : List α) :
    (l.filter p).length
      = (l.filter (fun a => p a && !(q a))).length
        + (l.filter (fun a => p a && q a)).length := by
  induction l with
  | nil => rfl
  | cons a l ih =>
    cases hp : p a <;> cases hq : q a <;>
      simp [List.filter_cons, hp, hq] <;> omega

/-- A Boolean predicate and its negation partition the length of a list. -/
theorem length_filter_partition {α : Type _} (p : α → Bool) (l : List α) :
    (l.filter p).length + (l.filter (fun a => !(p a))).length = l.length := by
  induction l with
  | nil => rfl
  | cons a l ih =>
    cases hp : p a <;> simp [List.filter_cons, hp] <;> omega

/-- The last element of a list ending in an explicit singleton. -/
theorem getLast?_append_singleton {α : Type _} (l : List α) (a : α) :
    (l ++ [a]).getLast? = some a := by
  induction l with
  | nil => rfl
  | cons x l ih =>
    cases l with
    | nil => rfl
    | cons y l => simpa using ih

/-- C1: the spec scenario — touch targets with 2 failing findings, contrast
unavailable, layout with 0 issues, accessibility with 3 unlabeled
elements — yields totalIssues 2, not the claimed sum 5: the JavaScript
totalIssues expression of ios_audit_all mixes logical-or with addition
without parentheses, so it evaluates to the first nonzero category count.
The contrast entry of the results record is also simply absent rather
than marked unavailable. The other three categories are still computed. -/
theorem auditAll_totalIssues_at_spec_scenario :
    (iosAuditAll
        (okResp [ttFail30 "t1", ttFail30 "t2"])
        (failResp "contrast unavailable")
        (okResp ([] : List LayoutIssue))
        (okResp [elemNoLabel "e1", elemNoLabel "e2", elemNoLabel "e3"])).totalIssues
      = JSNum.num 2
    ∧ (iosAuditAll
        (okResp [ttFail30 "t1", ttFail30 "t2"])
        (failResp "contrast unavailable")
        (okResp ([] : List LayoutIssue))
        (okResp [elemNoLabel "e1", elemNoLabel "e2", elemNoLabel "e3"])).totalIssues
      ≠ JSNum.num 5
    ∧ (iosAuditAll
        (okResp [ttFail30 "t1", ttFail30 "t2"])
        (failResp "contrast unavailable")
        (okResp ([] : List LayoutIssue))
        (okResp [elemNoLabel "e1", elemNoLabel "e2", elemNoLabel "e3"])).results
      = { touchTargets := some { total := 2, failing := 2 },
          contrast := none,
          layout := some { issues := 0 },
          accessibility := some { total := 3, missingLabels := 3 } } := by
  refine ⟨rfl, by decide, rfl⟩

/-- C2 counterexample: when all four category responses fail, the report
records no category at all — every entry of the results record is absent
and the rendered lines mention none of the four categories — rather than
marking each of the four categories unavailable as the claim states. -/
theorem auditAll_allFailing_omits_categories :
    (iosAuditAll (failResp "e1" : DebugServerResponse (List TouchTargetAudit))
        (failResp "e2") (failResp "e3") (failResp "e4")).results
      = { touchTargets := none, contrast := none, layout := none,
          accessibility := none }
    ∧ (iosAuditAll (failResp "e1" : DebugServerResponse (List TouchTargetAudit))
        (failResp "e2") (failResp "e3") (failResp "e4")).lines
      = ["# Full UI/UX Audit Report\n", "---",
         "**Total Issues Found:** 0",
         "\n*Run individual audits for detailed information.*"] :=
  ⟨rfl, rfl⟩

/-- C2 as amended: for every four failing telemetry responses, the full
audit returns normally (the handler is a total function, never a thrown
error) with totalIssues 0, but the failed categories are omitted from the
results record and from the rendered lines instead of being marked
unavailable. -/
theorem auditAll_allFailing_report (e1 e2 e3 e4 : String) :
    iosAuditAll (failResp e1) (failResp e2) (failResp e3) (failResp e4)
      = { results := { touchTargets := none, contrast := none,
                       layout := none, accessibility := none },
          totalIssues := JSNum.num 0,
          lines := ["# Full UI/UX Audit Report\n", "---",
                    "**Total Issues Found:** 0",
                    "\n*Run individual audits for detailed information.*"] } :=
  rfl

/-- C3 counterexample: on the btn1 scenario (one unlabeled Button element,
one failing touch target, both telemetry calls successful) the
single-category accessibility audit produces 2 findings while the full
audit records an accessibility count of 1: the full audit counts only
unlabeled elements and folds in neither the touch-target findings nor the
generic-container exclusion. -/
theorem auditAll_accessibility_diverges_from_single_audit :
    (iosAuditAllResults (okResp [ttFail30 "btn1"])
        (okResp ([] : List ContrastCheckResult))
        (okResp ([] : List LayoutIssue))
        (okResp [btn1Element])).accessibility
      = some { total := 1, missingLabels := 1 }
    ∧ iosAuditAccessibility (okResp [btn1Element]) (okResp [ttFail30 "btn1"])
      = Except.ok
          [{ viewId := "btn1", type := "Button",
             issue := "Missing accessibility label", severity := "high" },
           { viewId := "btn1", type := "touch_target",
             issue := "Touch target too small: 30×30pt (minimum 44×44pt)",
             severity := "medium" }]
    ∧ (1 : Nat) ≠ 2 :=
  ⟨rfl, rfl, by decide⟩

/-- C4: on interactive elements with the single empty-labeled Button btn1
and touch targets with the single failing 30×30 target btn1, the
accessibility audit produces exactly two findings, first a high-severity
missing-label finding and then a medium-severity undersized finding whose
message embeds the actual 30×30 and the minimum 44×44 dimensions. -/
theorem auditAccessibility_btn1_scenario :
    iosAuditAccessibility
        (okResp [btn1Element])
        (okResp [{ viewId := "btn1", accessibilityLabel := none,
                   frame := ⟨0, 0, 30, 30⟩, touchableArea := 900,
                   meetsMinimum := false, recommendation := none }])
      = Except.ok
          [{ viewId := "btn1", type := "Button",
             issue := "Missing accessibility label", severity := "high" },
           { viewId := "btn1", type := "touch_target",
             issue := "Touch target too small: 30×30pt (minimum 44×44pt)",
             severity := "medium" }] :=
  rfl

/-- C5 counterexample: with one unlabeled Button and a failed touch-target
telemetry call, the accessibility audit succeeds with the missing-label
finding only, and its result is identical to the result obtained from an
empty successful touch-target response: the failed call is silently
replaced by an empty findings list, contradicting the claim. -/
theorem auditAccessibility_defaults_failed_touch_to_empty :
    iosAuditAccessibility (okResp [elemNoLabel "btn1"]) (failResp "boom")
      = Except.ok
          [{ viewId := "btn1", type := "Button",
             issue := "Missing accessibility label", severity := "high" }]
    ∧ iosAuditAccessibility (okResp [elemNoLabel "btn1"]) (failResp "boom")
      = iosAuditAccessibility (okResp [elemNoLabel "btn1"])
          (okResp ([] : List TouchTargetAudit)) :=
  ⟨rfl, rfl⟩

/-- C5 as amended: in the accessibility audit a failed touch-target
telemetry call is silently replaced by an empty findings list — for every
interactive-elements response the audit result under a failed touch-target
response equals the result under an empty successful one — while a failed
interactive-elements response does fail fast. -/
theorem auditAccessibility_touch_failure_eq_empty_success
    (interR : DebugServerResponse (List InteractiveElement)) (e : String) :
    iosAuditAccessibility interR (failResp e)
      = iosAuditAccessibility interR (okResp ([] : List TouchTargetAudit)) :=
  rfl

/-- C3 as amended: for every pair of successful telemetry responses, the
full audit records as its accessibility count the number of elements with
a falsy label, while the single-category audit counts unlabeled
non-generic elements plus failing touch targets; the two counts satisfy
fullCount + failingTouchTargets = singleCount + unlabeledGenericContainers,
and consequently they coincide exactly when the failing touch-target count
equals the unlabeled-UIView count. -/
theorem auditAll_accessibility_count_decomposition
    (els : List InteractiveElement) (tts : List TouchTargetAudit)
    (cR : DebugServerResponse (List ContrastCheckResult))
    (lR : DebugServerResponse (List LayoutIssue)) :
    ∃ issues s,
      iosAuditAccessibility (okResp els) (okResp tts) = Except.ok issues
      ∧ (iosAuditAllResults (okResp tts) cR lR (okResp els)).accessibility
          = some s
      ∧ s.missingLabels + (tts.filter (fun t => !t.meetsMinimum)).length
          = issues.length
            + (els.filter
                (fun e => jsFalsyStr e.label && (e.type == "UIView"))).length
      ∧ (s.missingLabels = issues.length
          ↔ (tts.filter (fun t => !t.meetsMinimum)).length
              = (els.filter
                  (fun e => jsFalsyStr e.label && (e.type == "UIView"))).length) := by
  refine ⟨_, _, rfl, rfl, ?_⟩
  have hlab :
      (els.filterMap (fun el =>
        if jsFalsyStr el.label && !(el.type == "UIView") then
          some { viewId := el.viewId, type := el.type,
                 issue := "Missing accessibility label",
                 severity := "high" : AccessibilityIssue }
        else none)).length
      + (els.filter
          (fun e => jsFalsyStr e.label && (e.type == "UIView"))).length
      = (els.filter (fun e => jsFalsyStr e.label)).length := by
    induction els with
    | nil => rfl
    | cons a l ih =>
      cases h1 : jsFalsyStr a.label <;> cases h2 : (a.type == "UIView") <;>
        simp_all [List.filterMap_cons, List.filter_cons] <;> omega
  have htt :
      (tts.filterMap (fun tt =>
        if !tt.meetsMinimum then
          some { viewId := tt.viewId, type := "touch_target",
                 issue := "Touch target too small: " ++ jsNumStr tt.frame.width
                   ++ "×" ++ jsNumStr tt.frame.height
                   ++ "pt (minimum 44×44pt)",
                 severity := "medium" : AccessibilityIssue }
        else none)).length
      = (tts.filter (fun t => !t.meetsMinimum)).length := by
    induction tts with
    | nil => rfl
    | cons a l ih =>
      cases h : a.meetsMinimum <;>
        simp_all [List.filterMap_cons, List.filter_cons]
  simp only [iosAuditAccessibility, iosAuditAllResults, okResp,
    List.length_append, Option.getD_some, if_true, ite_true]
  simp at hlab htt ⊢
  omega

/-- C6: the touch-target classifier (modelled from the spec, the in-app
classifier implementation not being among the repository sources) sets
meetsMinimum true exactly when both width and height are at least 44
points — so exactly 44×44 passes and any frame with a width or height
below 44, including zero- and negative-dimension frames, classifies as
failing — and always sets touchableArea to width times height; the
classifier is a total function, so degenerate frames classify rather than
throw. -/
theorem classifyTouchTarget_spec (vid : String) (lbl : Option String)
    (frame : Frame) :
    ((classifyTouchTarget vid lbl frame).meetsMinimum = true
      ↔ ((44 : Rat) ≤ frame.width ∧ (44 : Rat) ≤ frame.height))
    ∧ ((classifyTouchTarget vid lbl frame).meetsMinimum = false
      ↔ (frame.width < (44 : Rat) ∨ frame.height < (44 : Rat)))
    ∧ (classifyTouchTarget vid lbl frame).touchableArea
        = frame.width * frame.height := by
  have hfirst :
      (classifyTouchTarget vid lbl frame).meetsMinimum = true
        ↔ ((44 : Rat) ≤ frame.width ∧ (44 : Rat) ≤ frame.height) := by
    simp [classifyTouchTarget, MIN_TOUCH_TARGET_SIZE]
  refine ⟨hfirst, ?_, rfl⟩
  have hneg :
      (classifyTouchTarget vid lbl frame).meetsMinimum = false
        ↔ ¬ ((44 : Rat) ≤ frame.width ∧ (44 : Rat) ≤ frame.height) := by
    rw [Bool.eq_false_iff]
    exact not_congr hfirst
  rw [hneg, not_and_or, not_le, not_le]

/-- C7: the contrast classifier (modelled from the spec, applying the WCAG
threshold constants of src/constants.ts; the in-app classifier
implementation is not among the repository sources) classifies a
normal-text ratio of 4.5 as meeting AA and 4.49 as not, a ratio of 7.0 as
meeting AAA and 6.99 as not; at 6.99 the AA verdict is true while the AAA
verdict is false, exhibiting the independent evaluation of the two
tiers. -/
theorem classifyContrast_thresholds :
    (classifyContrast (mkRat 9 2) none).1 = true
    ∧ (classifyContrast (mkRat 449 100) none).1 = false
    ∧ (classifyContrast (7 : Rat) none).2 = true
    ∧ (classifyContrast (mkRat 699 100) none).2 = false
    ∧ (classifyContrast (mkRat 699 100) none).1 = true
    ∧ (classifyContrast (mkRat 449 100) none).2 = false := by
  refine ⟨?_, ?_, ?_, ?_, ?_, ?_⟩ <;> decide

/-- C9: rendering is deterministic — the two Reporter functions are pure,
so on equal report values they produce byte-identical text. -/
theorem renderers_deterministic (a b : List TouchTargetAudit)
    (c d : List ContrastCheckResult) (h1 : a = b) (h2 : c = d) :
    formatTouchTargetAuditMarkdown a = formatTouchTargetAuditMarkdown b
    ∧ formatContrastAuditMarkdown c = formatContrastAuditMarkdown d := by
  subst h1
  subst h2
  exact ⟨rfl, rfl⟩

/-- Witness for C9 at concrete inputs. -/
theorem renderers_deterministic_witness :
    formatTouchTargetAuditMarkdown [ttFail30 "a"]
      = formatTouchTargetAuditMarkdown [ttFail30 "a"]
    ∧ formatContrastAuditMarkdown [crFail "c"]
      = formatContrastAuditMarkdown [crFail "c"] :=
  renderers_deterministic [ttFail30 "a"] [ttFail30 "a"]
    [crFail "c"] [crFail "c"] rfl rfl

/-- Heading extraction distributes over list append. -/
theorem issueHeadings_append (l1 l2 : List String) :
    issueHeadings (l1 ++ l2) = issueHeadings l1 ++ issueHeadings l2 := by
  simp [issueHeadings]

/-- The only heading line in the block rendered for one failing touch
target is its label heading. -/
theorem issueHeadings_block (item : TouchTargetAudit) :
    issueHeadings (touchIssueBlock item)
      = [jsOrStr item.accessibilityLabel item.viewId] := by
  rcases item with ⟨vid, lbl, fr, ar, mm, rec⟩
  cases rec <;> rfl

/-- The heading lines of the concatenated issue blocks are exactly the
labels of the rendered items, in order. -/
theorem issueHeadings_flatMap (l : List TouchTargetAudit) :
    issueHeadings (l.flatMap touchIssueBlock)
      = l.map (fun a => jsOrStr a.accessibilityLabel a.viewId) := by
  induction l with
  | nil => rfl
  | cons a l ih =>
    rw [List.flatMap_cons, issueHeadings_append, issueHeadings_block, ih]
    rfl

/-- The report title contributes no heading line. -/
theorem issueHeadings_title : issueHeadings ["# Touch Target Audit\n"] = [] := rfl

/-- The all-passing banner contributes no heading line. -/
theorem issueHeadings_okline :
    issueHeadings
      ["\u2705 **All touch targets meet minimum size requirements (44\u00d744pt)**\n"]
      = [] := rfl

/-- The warning banner and the Issues section header contribute no heading
line, whatever the rendered count. -/
theorem issueHeadings_warnline (n : Nat) :
    issueHeadings
      ["\u26a0\ufe0f **" ++ toString n ++ " touch targets are below minimum size**\n",
       "## Issues\n"]
      = [] := rfl

/-- The summary line contributes no heading line, whatever the counts. -/
theorem issueHeadings_summaryline (p f : Nat) :
    issueHeadings
      ["\n**Summary:** " ++ toString p ++ " passing, "
        ++ toString f ++ " failing"]
      = [] := rfl

/-- C8: the rendered touch-target report lists exactly the failing findings
(the heading lines of the rendered line list are exactly the labels of the
findings with meetsMinimum false, in input order), each failing finding
contributes its size-and-area line and its position line to the rendering,
the report ends with the summary line stating the passing and failing
counts, and those two counts sum to the input length. -/
theorem touchReport_failing_order_and_summary (audit : List TouchTargetAudit) :
    issueHeadings (formatTouchTargetAuditLines audit)
        = (audit.filter (fun a => !a.meetsMinimum)).map
            (fun a => jsOrStr a.accessibilityLabel a.viewId)
    ∧ (formatTouchTargetAuditLines audit).getLast?
        = some ("\n**Summary:** "
            ++ toString (audit.filter (fun a => a.meetsMinimum)).length
            ++ " passing, "
            ++ toString (audit.filter (fun a => !a.meetsMinimum)).length
            ++ " failing")
    ∧ (audit.filter (fun a => a.meetsMinimum)).length
        + (audit.filter (fun a => !a.meetsMinimum)).length = audit.length
    ∧ ∀ a, a ∈ audit → a.meetsMinimum = false →
        ("### " ++ jsOrStr a.accessibilityLabel a.viewId)
            ∈ formatTouchTargetAuditLines audit
        ∧ ("- **Size:** " ++ jsNumStr a.frame.width ++ "×"
              ++ jsNumStr a.frame.height ++ "pt (area: "
              ++ jsNumStr a.touchableArea ++ "pt²)")
            ∈ formatTouchTargetAuditLines audit
        ∧ ("- **Position:** (" ++ jsNumStr a.frame.x ++ ", "
              ++ jsNumStr a.frame.y ++ ")")
            ∈ formatTouchTargetAuditLines audit := by
  refine ⟨?_, ?_, ?_, ?_⟩
  · rw [formatTouchTargetAuditLines]
    rw [issueHeadings_append, issueHeadings_append]
    rw [issueHeadings_title, issueHeadings_summaryline]
    cases hnil : audit.filter (fun a => !a.meetsMinimum) with
    | nil => rw [if_pos (by simp)]; rw [issueHeadings_okline]; rfl
    | cons a l =>
      rw [if_neg (by simp)]
      rw [issueHeadings_append, issueHeadings_warnline, issueHeadings_flatMap]
      simp
  · rw [formatTouchTargetAuditLines]
    exact getLast?_append_singleton _ _
  · exact length_filter_partition (fun a => a.meetsMinimum) audit
  · intro a ha hfail
    have hmemf : a ∈ audit.filter (fun x => !x.meetsMinimum) :=
      List.mem_filter.mpr ⟨ha, by simp [hfail]⟩
    have hlen : ((audit.filter (fun x => !x.meetsMinimum)).length == 0) = false := by
      have hne := List.ne_nil_of_mem hmemf
      simpa [List.length_eq_zero] using hne
    have hblock : ∀ x, x ∈ touchIssueBlock a →
        x ∈ formatTouchTargetAuditLines audit := by
      intro x hx
      have hfm : x ∈ (audit.filter (fun x => !x.meetsMinimum)).flatMap touchIssueBlock :=
        List.mem_flatMap.mpr ⟨a, hmemf, hx⟩
      rw [formatTouchTargetAuditLines, hlen]
      simp only [Bool.false_eq_true, if_false, List.mem_append, List.mem_cons]
      simp [hfm]
    refine ⟨?_, ?_, ?_⟩
    · exact hblock _ (by rcases a with ⟨v, l, f, ar, m, r⟩; cases r <;> simp [touchIssueBlock])
    · exact hblock _ (by rcases a with ⟨v, l, f, ar, m, r⟩; cases r <;> simp [touchIssueBlock])
    · exact hblock _ (by rcases a with ⟨v, l, f, ar, m, r⟩; cases r <;> simp [touchIssueBlock])

/-- Witness for C8 at a concrete audit list. -/
theorem touchReport_failing_order_and_summary_witness :
    ("### btn1" ∈ formatTouchTargetAuditLines [ttPass48 "ok1", ttFail30 "btn1"])
    ∧ issueHeadings (formatTouchTargetAuditLines [ttPass48 "ok1", ttFail30 "btn1"])
        = ["btn1"] :=
  ⟨((touchReport_failing_order_and_summary
        [ttPass48 "ok1", ttFail30 "btn1"]).2.2.2
      (ttFail30 "btn1") (by decide) (by decide)).1,
   (touchReport_failing_order_and_summary [ttPass48 "ok1", ttFail30 "btn1"]).1⟩

/-- Under the coherence assumption that AAA implies AA, the three summary
filters of the contrast report partition the input length. -/
theorem contrast_partition_aux (l : List ContrastCheckResult)
    (h : ∀ r ∈ l, r.meetsWCAG_AAA = true → r.meetsWCAG_AA = true) :
    (contrastAAA l).length + (contrastAAOnly l).length
      + (contrastFailing l).length = l.length := by
  induction l with
  | nil => rfl
  | cons r l ih =>
    have hr := h r (by simp)
    have hl : ∀ x ∈ l, x.meetsWCAG_AAA = true → x.meetsWCAG_AA = true :=
      fun x hx => h x (by simp [hx])
    have hlen := ih hl
    cases haa : r.meetsWCAG_AA <;> cases haaa : r.meetsWCAG_AAA <;>
      simp_all [contrastAAA, contrastAAOnly, contrastFailing,
        List.filter_cons] <;> omega

/-- C10: for every contrast result list in which AAA compliance implies AA
compliance, the three groups of the rendered summary partition the input —
each item falls in exactly one of the AAA, AA-only and failing groups, the
three group sizes sum to the input length — and the rendered report ends
with the summary line built from exactly those three counts. -/
theorem contrastReport_summary_partition (results : List ContrastCheckResult)
    (h : ∀ r ∈ results, r.meetsWCAG_AAA = true → r.meetsWCAG_AA = true) :
    (contrastAAA results).length + (contrastAAOnly results).length
        + (contrastFailing results).length = results.length
    ∧ (∀ r ∈ results,
        (r.meetsWCAG_AAA).toNat
          + (r.meetsWCAG_AA && !r.meetsWCAG_AAA).toNat
          + (!r.meetsWCAG_AA).toNat = 1)
    ∧ (formatContrastAuditLines results).getLast?
        = some (contrastSummaryLine results) := by
  refine ⟨contrast_partition_aux results h, ?_, ?_⟩
  · intro r hr
    have hcoh := h r hr
    cases haa : r.meetsWCAG_AA <;> cases haaa : r.meetsWCAG_AAA <;>
      simp_all
  · rw [formatContrastAuditLines]
    exact getLast?_append_singleton _ _

/-- Witness for C10 at a concrete three-item contrast list. -/
theorem contrastReport_summary_partition_witness :
    (contrastAAA [crPassAAA "a", crAAOnly "b", crFail "c"]).length
      + (contrastAAOnly [crPassAAA "a", crAAOnly "b", crFail "c"]).length
      + (contrastFailing [crPassAAA "a", crAAOnly "b", crFail "c"]).length
      = 3 := by
  have hpart := (contrastReport_summary_partition
    [crPassAAA "a", crAAOnly "b", crFail "c"] (by decide)).1
  simpa using hpart
